import Mathlib

/-!
Shallow embedding of `src/game.js`, a browser client for a multiplayer
shared-world viewer.  JavaScript objects used as string-keyed dictionaries
(`this.players`, `this.avatars`, `avatar.loadedImages`, …) are embedded as
insertion-ordered association lists; numeric values (coordinates, canvas and
world sizes) are embedded as rationals, which model the exact arithmetic the
code performs (additions, subtractions, halving, `Math.max`/`Math.min`).
Canvas side effects are embedded as lists of emitted drawing commands.
-/

/-- A JavaScript object used as a dictionary: an insertion-ordered list of
key/value pairs.  Real JS objects have unique keys; well-formed states carry
a `Nodup` hypothesis where key uniqueness matters. -/
abbrev Obj (α : Type) := List (String × α)

namespace Obj

/-- Property read `m[k]`: the value at the first occurrence of key `k`,
`none` when the key is absent (JS `undefined`). -/
def get {α : Type} (m : Obj α) (k : String) : Option α :=
  match m with
  | [] => none
  | (k1, v) :: t => if k1 = k then some v else get t k

/-- Property write `m[k] = v`: replace the value at the first occurrence of
`k` in place, or append a new entry (JS insertion-order semantics). -/
def set {α : Type} (m : Obj α) (k : String) (v : α) : Obj α :=
  match m with
  | [] => [(k, v)]
  | (k1, v1) :: t => if k1 = k then (k1, v) :: t else (k1, v1) :: set t k v

/-- `delete m[k]`: remove the entry (entries) keyed `k`. -/
def delete {α : Type} (m : Obj α) (k : String) : Obj α :=
  match m with
  | [] => []
  | (k1, v1) :: t => if k1 = k then delete t k else (k1, v1) :: delete t k

/-- `Object.assign(m, p)`: write each entry of `p` into `m`, in order. -/
def assign {α : Type} (m : Obj α) (p : Obj α) : Obj α :=
  p.foldl (fun acc kv => set acc kv.1 kv.2) m

/-- The keys of an object, in order. -/
def keys {α : Type} (m : Obj α) : List String := m.map Prod.fst

/-- The value the LAST occurrence of `k` carries, `none` when absent.  On
objects with unique keys this agrees with `get`; it describes which value
wins when a whole list of writes (`assign`) is replayed. -/
def getLast {α : Type} (p : Obj α) (k : String) : Option α :=
  match p with
  | [] => none
  | (k1, v) :: t =>
    match getLast t k with
    | some w => some w
    | none => if k1 = k then some v else none

theorem get_set {α : Type} (m : Obj α) (k k1 : String) (v : α) :
    get (set m k v) k1 = if k = k1 then some v else get m k1 := by
  induction m with
  | nil => simp [get, set]
  | cons hd t ih =>
    obtain ⟨kh, vh⟩ := hd
    by_cases hk : kh = k
    · subst hk
      by_cases hk1 : kh = k1 <;> simp [get, set, hk1]
    · by_cases hk1 : kh = k1
      · subst hk1
        simp [get, set, hk, Ne.symm hk]
      · simp [get, set, hk, hk1, ih]

theorem get_assign {α : Type} (p m : Obj α) (k : String) :
    get (assign m p) k =
      match getLast p k with
      | some v => some v
      | none => get m k := by
  induction p generalizing m with
  | nil => simp [assign, getLast]
  | cons hd t ih =>
    obtain ⟨kh, vh⟩ := hd
    show get (assign (set m kh vh) t) k = _
    rw [ih]
    rcases hlast : getLast t k with _ | w
    · rw [get_set]
      by_cases hk : kh = k <;> simp [getLast, hlast, hk]
    · simp [getLast, hlast]

theorem get_delete {α : Type} (m : Obj α) (k k1 : String) :
    get (delete m k) k1 = if k = k1 then none else get m k1 := by
  induction m with
  | nil => simp [get, delete]
  | cons hd t ih =>
    obtain ⟨kh, vh⟩ := hd
    by_cases hk : kh = k
    · subst hk
      rw [delete, if_pos rfl, ih]
      by_cases hk1 : kh = k1
      · subst hk1
        simp
      · simp [get, hk1]
    · by_cases hk1 : kh = k1
      · subst hk1
        rw [delete, if_neg hk, get, if_pos rfl, if_neg (Ne.symm hk), get, if_pos rfl]
      · rw [delete, if_neg hk, get, if_neg hk1, ih, get, if_neg hk1]

theorem mem_keys_iff_get {α : Type} (m : Obj α) (k : String) :
    k ∈ keys m ↔ (get m k).isSome := by
  induction m with
  | nil => simp [keys, get]
  | cons hd t ih =>
    obtain ⟨kh, vh⟩ := hd
    simp only [keys, List.map_cons, List.mem_cons] at *
    by_cases hk : kh = k
    · subst hk
      simp [get]
    · simp [get, hk, Ne.symm hk, ih]

theorem keys_delete_not_mem {α : Type} (m : Obj α) (k : String) :
    k ∉ keys (delete m k) := by
  rw [mem_keys_iff_get, get_delete, if_pos rfl]
  simp

theorem keys_set {α : Type} (m : Obj α) (k : String) (v : α) :
    keys (set m k v) = if k ∈ keys m then keys m else keys m ++ [k] := by
  induction m with
  | nil => simp [keys, set]
  | cons hd t ih =>
    obtain ⟨kh, vh⟩ := hd
    by_cases hk : kh = k
    · subst hk
      simp [keys, set]
    · simp only [keys, List.map_cons, List.mem_cons] at *
      rw [set, if_neg hk]
      simp only [keys, List.map_cons, ih]
      by_cases hmem : k ∈ List.map Prod.fst t <;>
        simp [hmem, Ne.symm hk]

theorem nodup_keys_set {α : Type} (m : Obj α) (k : String) (v : α)
    (h : (keys m).Nodup) : (keys (set m k v)).Nodup := by
  rw [keys_set]
  by_cases hmem : k ∈ keys m
  · simpa [hmem]
  · rw [if_neg hmem]
    refine List.Nodup.append h (List.nodup_singleton k) ?_
    intro a ha hb
    rw [List.mem_singleton] at hb
    exact hmem (hb ▸ ha)

theorem mem_keys_set {α : Type} (m : Obj α) (k k1 : String) (v : α)
    (h : k1 ∈ keys m) : k1 ∈ keys (set m k v) := by
  rw [keys_set]
  by_cases hmem : k ∈ keys m <;> simp [hmem, h]

theorem mem_keys_assign_of_mem {α : Type} (p m : Obj α) (k : String)
    (h : k ∈ keys m) : k ∈ keys (assign m p) := by
  induction p generalizing m with
  | nil => exact h
  | cons hd t ih => exact ih (set m hd.1 hd.2) (mem_keys_set m hd.1 k hd.2 h)

theorem payload_keys_mem_assign {α : Type} (p m : Obj α) :
    ∀ kv ∈ p, kv.1 ∈ keys (assign m p) := by
  induction p generalizing m with
  | nil => simp
  | cons hd t ih =>
    intro kv hkv
    rcases List.mem_cons.mp hkv with hh | ht
    · subst hh
      refine mem_keys_assign_of_mem t (set m kv.1 kv.2) kv.1 ?_
      refine (mem_keys_iff_get (set m kv.1 kv.2) kv.1).mpr ?_
      rw [get_set, if_pos rfl]
      rfl
    · exact ih (set m hd.1 hd.2) kv ht

theorem keys_assign_of_mem {α : Type} (p m : Obj α)
    (h : ∀ kv ∈ p, kv.1 ∈ keys m) : keys (assign m p) = keys m := by
  induction p generalizing m with
  | nil => rfl
  | cons hd t ih =>
    have hset : keys (set m hd.1 hd.2) = keys m := by
      rw [keys_set, if_pos (h hd (List.mem_cons_self hd t))]
    show keys (assign (set m hd.1 hd.2) t) = keys m
    rw [ih (set m hd.1 hd.2) (fun kv hkv => hset ▸ h kv (List.mem_cons_of_mem hd hkv)),
      hset]

theorem nodup_keys_assign {α : Type} (p m : Obj α)
    (h : (keys m).Nodup) : (keys (assign m p)).Nodup := by
  induction p generalizing m with
  | nil => exact h
  | cons hd t ih => exact ih (set m hd.1 hd.2) (nodup_keys_set m hd.1 hd.2 h)

theorem ext_of_nodup {α : Type} (m1 m2 : Obj α)
    (hkeys : keys m1 = keys m2) (hnd : (keys m1).Nodup)
    (hget : ∀ k, get m1 k = get m2 k) : m1 = m2 := by
  induction m1 generalizing m2 with
  | nil =>
    cases m2 with
    | nil => rfl
    | cons hd t => simp [keys] at hkeys
  | cons hd1 t1 ih =>
    cases m2 with
    | nil => simp [keys] at hkeys
    | cons hd2 t2 =>
      obtain ⟨k1, v1⟩ := hd1
      obtain ⟨k2, v2⟩ := hd2
      simp only [keys, List.map_cons, List.cons.injEq] at hkeys
      obtain ⟨hk, hkt⟩ := hkeys
      subst hk
      have hv : v1 = v2 := by
        have := hget k1
        simpa [get] using this
      subst hv
      simp only [keys, List.map_cons, List.nodup_cons] at hnd
      refine congrArg _ (ih t2 hkt hnd.2 (fun k => ?_))
      by_cases hk1 : k = k1
      · subst hk1
        have h1 : get t1 k = none := by
          rcases hg : get t1 k with _ | w
          · rfl
          · exact absurd ((mem_keys_iff_get t1 k).mpr (by simp [hg])) hnd.1
        have h2 : get t2 k = none := by
          rcases hg : get t2 k with _ | w
          · rfl
          · have hmem2 : k ∈ keys t2 := (mem_keys_iff_get t2 k).mpr (by simp [hg])
            have hmem1 : k ∈ List.map Prod.fst t1 := by
              rw [hkt]
              simpa [keys] using hmem2
            exact absurd hmem1 hnd.1
        rw [h1, h2]
      · have := hget k
        simpa [get, Ne.symm hk1] using this

theorem assign_idem {α : Type} (m p : Obj α) (h : (keys m).Nodup) :
    assign (assign m p) p = assign m p := by
  refine ext_of_nodup _ _ ?_ ?_ ?_
  · exact keys_assign_of_mem p (assign m p) (payload_keys_mem_assign p m)
  · exact nodup_keys_assign p (assign m p) (nodup_keys_assign p m h)
  · intro k
    rcases hlast : getLast p k with _ | w <;> simp [get_assign, hlast]

theorem cons_assign_of_not_mem {α : Type} (p m : Obj α) (k : String) (v : α)
    (h : k ∉ keys p) : assign ((k, v) :: m) p = (k, v) :: assign m p := by
  induction p generalizing m with
  | nil => rfl
  | cons hd t ih =>
    obtain ⟨kh, vh⟩ := hd
    simp only [keys, List.map_cons, List.mem_cons] at h
    push_neg at h
    show assign (set ((k, v) :: m) kh vh) t = (k, v) :: assign (set m kh vh) t
    rw [set, if_neg h.1]
    exact ih (set m kh vh) h.2

theorem assign_nil_of_nodup {α : Type} (p : Obj α) (h : (keys p).Nodup) :
    assign [] p = p := by
  induction p with
  | nil => rfl
  | cons hd t ih =>
    obtain ⟨k, v⟩ := hd
    simp only [keys, List.map_cons, List.nodup_cons] at h
    show assign (set [] k v) t = (k, v) :: t
    rw [show set ([] : Obj α) k v = [(k, v)] from rfl,
      cons_assign_of_not_mem t [] k v h.1, ih h.2]

end Obj

/-- An opaque decoded image for one animation frame. -/
structure Frame where
  id : Nat
deriving DecidableEq, Repr

/-- The world background image object (`this.worldImage` once assigned).
`complete` mirrors whether the asynchronous load has finished, i.e. whether
`onload` has fired for it. -/
structure WorldImage where
  complete : Bool
deriving DecidableEq, Repr

/-- One drawing command emitted on the 2D canvas context.  `drawFrame`
records, besides the destination rectangle passed to `drawImage`, whether
`ctx.scale(-1, 1)` was in effect at the call. -/
inductive CtxOp where
  | clearRect (x y w h : ℚ)
  | drawWorld (img : WorldImage) (sx sy sw sh dx dy dw dh : ℚ)
  | drawFrame (img : Frame) (dx dy dw dh : ℚ) (flipX : Bool)
  | strokeText (s : String) (x y : ℚ)
  | fillText (s : String) (x y : ℚ)
deriving DecidableEq, Repr

/-- Screen-space footprint (left, top, width, height) of a drawing command
after applying the transform active when it was issued: under
`ctx.scale(-1, 1)` a rectangle issued on `[dx, dx + dw]` occupies screen
`[-dx - dw, -dx]`.  Text commands have no rectangular footprint here. -/
def CtxOp.footprint : CtxOp → Option (ℚ × ℚ × ℚ × ℚ)
  | .clearRect x y w h => some (x, y, w, h)
  | .drawWorld _ _ _ _ _ dx dy dw dh => some (dx, dy, dw, dh)
  | .drawFrame _ dx dy dw dh flipx =>
    if flipx then some (-dx - dw, dy, dw, dh) else some (dx, dy, dw, dh)
  | .strokeText _ _ _ => none
  | .fillText _ _ _ => none

/-- Screen x-coordinate of the pixel column at horizontal fraction `t` of
the SOURCE image of a `drawFrame` command (`t = 0`: source left edge,
`t = 1`: source right edge); `none` for other commands.  Under
`ctx.scale(-1, 1)` the point issued at `dx + dw * t` lands on screen at
`-(dx + dw * t)`. -/
def CtxOp.pixelX (op : CtxOp) (t : ℚ) : Option ℚ :=
  match op with
  | .drawFrame _ dx _ dw _ flipx =>
    some (if flipx then -(dx + dw * t) else dx + dw * t)
  | _ => none

/-- A player record as consumed by the client. -/
structure Player where
  id : String
  username : String
  x : ℚ
  y : ℚ
  facing : String
  animationFrame : Nat
  avatar : String
deriving DecidableEq, Repr

/-- An avatar definition as received from the server: a name and the raw
(still image-encoded) frame sources per facing direction. -/
structure AvatarData where
  name : String
  frames : Obj (List String)
deriving DecidableEq, Repr

/-- An `Avatar` instance: raw frame sources plus the per-direction arrays of
decoded images, sparse because each image loads independently (`none` is a
hole / not-yet-loaded slot). -/
structure Avatar where
  name : String
  frames : Obj (List String)
  loadedImages : Obj (List (Option Frame))
deriving DecidableEq, Repr

/-- `new Avatar(avatarData)` up to the synchronous part of `loadImages`:
name and frames are copied and an empty `loadedImages` array is created per
direction; the decoded images themselves arrive later via `onload`
events. -/
def Avatar.init (d : AvatarData) : Avatar :=
  { name := d.name, frames := d.frames,
    loadedImages := d.frames.map (fun dir => (dir.1, ([] : List (Option Frame)))) }

/-- The frame lookup `this.loadedImages[direction]?.[animationFrame]`:
`none` when the direction key is missing, the index is out of range, or the
slot is a hole (image not loaded yet). -/
def Avatar.lookupFrame (a : Avatar) (direction : String)
    (animationFrame : Nat) : Option Frame :=
  match Obj.get a.loadedImages direction with
  | none => none
  | some arr => arr.getD animationFrame none

/-- `Avatar.draw(ctx, x, y, facing, animationFrame, isWest)`: looks up
`loadedImages[direction]?.[animationFrame]` where `direction` substitutes
`"east"` when `isWest`; absent frame means no command at all.  With
`isWest` the command is issued under `ctx.scale(-1, 1)` at
`(-x - size/2, y - size/2)`, otherwise at `(x - size/2, y - size/2)`. -/
def Avatar.draw (a : Avatar) (x y : ℚ) (facing : String)
    (animationFrame : Nat) (isWest : Bool) : Option CtxOp :=
  let direction := if isWest then "east" else facing
  let frame : Option Frame := Avatar.lookupFrame a direction animationFrame
  match frame with
  | none => none
  | some f =>
    let avatarSize : ℚ := 32
    if isWest then
      some (CtxOp.drawFrame f (-x - avatarSize / 2) (y - avatarSize / 2)
        avatarSize avatarSize true)
    else
      some (CtxOp.drawFrame f (x - avatarSize / 2) (y - avatarSize / 2)
        avatarSize avatarSize false)

/-- The mutable fields of the `GameClient` object that the claims are
about. -/
structure GameState where
  canvasWidth : ℚ
  canvasHeight : ℚ
  worldImage : Option WorldImage
  worldWidth : ℚ
  worldHeight : ℚ
  playerId : Option String
  players : Obj Player
  avatars : Obj Avatar
  viewportX : ℚ
  viewportY : ℚ
deriving DecidableEq, Repr

/-- An inbound protocol message after `JSON.parse`, split on the `action`
discriminant exactly as the `switch` in `handleMessage` does; actions outside
the four known ones fall into `unknownAction`. -/
inductive Message where
  | joinGame (success : Bool) (playerId : String) (players : Obj Player)
      (avatars : Obj AvatarData) (error : String)
  | playerJoined (player : Player) (avatar : Option AvatarData)
  | playersMoved (players : Obj Player)
  | playerLeft (playerId : String)
  | unknownAction (action : String)
deriving DecidableEq, Repr

namespace GameClient

/-- The `GameClient` constructor state: canvas sized to the window, world
image still `null`, world size 2048×2048, no player id, empty players and
avatars, viewport at the origin. -/
def construct (canvasW canvasH : ℚ) : GameState :=
  { canvasWidth := canvasW, canvasHeight := canvasH, worldImage := none,
    worldWidth := 2048, worldHeight := 2048, playerId := none,
    players := [], avatars := [], viewportX := 0, viewportY := 0 }

/-- `loadWorldMap`: assigns `this.worldImage = new Image()` synchronously —
the field is set to an image object whose load has NOT yet completed. -/
def loadWorldMap (s : GameState) : GameState :=
  { s with worldImage := some { complete := false } }

/-- Completion of the asynchronous load of the world image (the browser marks the
image complete before firing the `onload` handler, which then renders). -/
def worldImageOnload (s : GameState) : GameState :=
  match s.worldImage with
  | some _ => { s with worldImage := some { complete := true } }
  | none => s

/-- Whether the world image has actually finished loading: the field is
assigned AND its asynchronous load completed. -/
def worldImageLoaded (s : GameState) : Bool :=
  match s.worldImage with
  | some img => img.complete
  | none => false

/-- `updateViewport`: returns unchanged when `!this.playerId` (JS falsiness:
`null` or the empty string) or when the local player id is not a key of
`this.players`; otherwise recomputes both viewport coordinates with
`Math.max(0, Math.min(world - canvas, center - canvas / 2))`. -/
def updateViewport (s : GameState) : GameState :=
  match s.playerId with
  | none => s
  | some pid =>
    if pid = "" then s
    else
      match Obj.get s.players pid with
      | none => s
      | some player =>
        let centerX := player.x
        let centerY := player.y
        { s with
          viewportX := max 0 (min (s.worldWidth - s.canvasWidth)
            (centerX - s.canvasWidth / 2)),
          viewportY := max 0 (min (s.worldHeight - s.canvasHeight)
            (centerY - s.canvasHeight / 2)) }

/-- `worldToCanvas(worldX, worldY)`. -/
def worldToCanvas (s : GameState) (worldX worldY : ℚ) : ℚ × ℚ :=
  (worldX - s.viewportX, worldY - s.viewportY)

/-- `drawPlayer(player, x, y)`: resolve the avatar by name (absent avatar
skips the player entirely), draw the avatar frame (west mirrors east), then
stroke and fill the username 25 units above the anchor. -/
def drawPlayer (s : GameState) (player : Player) (x y : ℚ) : List CtxOp :=
  match Obj.get s.avatars player.avatar with
  | none => []
  | some avatar =>
    let isWest : Bool := player.facing == "west"
    let avatarOps : List CtxOp :=
      match Avatar.draw avatar x y player.facing player.animationFrame isWest with
      | some op => [op]
      | none => []
    let labelY := y - 25
    avatarOps ++
      [CtxOp.strokeText player.username x labelY,
       CtxOp.fillText player.username x labelY]

/-- `render()`: returns the list of canvas commands issued.  The guard is
`if (!this.worldImage) return;` — on the FIELD being assigned, not on the
load having completed.  Then clear, blit the viewport-cropped world, and
draw every player whose canvas position is within 50 units of the canvas
bounds. -/
def render (s : GameState) : List CtxOp :=
  match s.worldImage with
  | none => []
  | some img =>
    CtxOp.clearRect 0 0 s.canvasWidth s.canvasHeight ::
    CtxOp.drawWorld img s.viewportX s.viewportY s.canvasWidth s.canvasHeight
      0 0 s.canvasWidth s.canvasHeight ::
    s.players.flatMap (fun entry =>
      let player := entry.2
      let canvasPos := worldToCanvas s player.x player.y
      if -50 ≤ canvasPos.1 ∧ canvasPos.1 ≤ s.canvasWidth + 50 ∧
          -50 ≤ canvasPos.2 ∧ canvasPos.2 ≤ s.canvasHeight + 50 then
        drawPlayer s player canvasPos.1 canvasPos.2
      else [])

/-- The ids of the players for which the loop in `render` issues a
`drawPlayer` call (the in-viewport test of that loop, on the same state). -/
def drawnPlayerIds (s : GameState) : List String :=
  (s.players.filter (fun entry =>
    let canvasPos := worldToCanvas s entry.2.x entry.2.y
    decide (-50 ≤ canvasPos.1 ∧ canvasPos.1 ≤ s.canvasWidth + 50 ∧
      -50 ≤ canvasPos.2 ∧ canvasPos.2 ≤ s.canvasHeight + 50))).map Prod.fst

/-- `handleMessage(message)`: the `switch` on `message.action`.  Returns the
new state together with the console messages emitted. -/
def handleMessage (s : GameState) (m : Message) : GameState × List String :=
  match m with
  | .joinGame success pid players avatars err =>
    if success then
      let s1 : GameState :=
        { s with playerId := some pid, players := players,
                 avatars := avatars.foldl
                   (fun acc entry => Obj.set acc entry.1 (Avatar.init entry.2)) [] }
      (updateViewport s1, ["Joined game successfully, player ID: " ++ pid])
    else
      (s, ["Failed to join game: " ++ err])
  | .playerJoined player avatar =>
    let s1 := { s with players := Obj.set s.players player.id player }
    let s2 :=
      match avatar with
      | some a => { s1 with avatars := Obj.set s1.avatars a.name (Avatar.init a) }
      | none => s1
    (s2, [])
  | .playersMoved players =>
    (updateViewport { s with players := Obj.assign s.players players }, [])
  | .playerLeft pid =>
    ({ s with players := Obj.delete s.players pid }, [])
  | .unknownAction _ => (s, [])

/-- The `ws.onmessage` handler: `JSON.parse(event.data)` inside a
`try`/`catch`.  A malformed payload (decode result `none`) is caught and
logged; a decoded message is dispatched to `handleMessage`.  The function
is total, so no exception escapes it. -/
def onMessage (s : GameState) (decoded : Option Message) : GameState × List String :=
  match decoded with
  | some m => handleMessage s m
  | none => (s, ["Error parsing message:"])

end GameClient

/-- Spec-side definition (written from the words of the spec, for the
refinement claim C1): `clamp(x, lo, hi)`. -/
def specClamp (x lo hi : ℚ) : ℚ := min (max x lo) hi

/-- Spec-side definition (written from the words of the spec, for the
refinement claim C1): `vx = clamp(focalX - viewportW/2, 0, max(0, worldW - viewportW))`
on one axis. -/
def specViewportAxis (focal viewport world : ℚ) : ℚ :=
  specClamp (focal - viewport / 2) 0 (max 0 (world - viewport))

/-- The player of the worked example in the spec, standing at (1900, 50). -/
def examplePlayer : Player :=
  { id := "p1", username := "Olutobi", x := 1900, y := 50,
    facing := "south", animationFrame := 0, avatar := "a1" }

/-- The worked example state of the spec: the constructor state for a canvas of
800×600 (world 2048×2048), with the local player `p1` at (1900, 50). -/
def exampleViewportState : GameState :=
  { GameClient.construct 800 600 with
    playerId := some "p1", players := [("p1", examplePlayer)] }

theorem updateViewport_eq (s : GameState) :
    ∃ vx vy, GameClient.updateViewport s
      = { s with viewportX := vx, viewportY := vy } := by
  obtain ⟨cw, ch, wi, ww, wh, pid, pl, av, vx, vy⟩ := s
  unfold GameClient.updateViewport
  rcases pid with _ | pid
  · exact ⟨vx, vy, rfl⟩
  · by_cases hne : pid = ""
    · simp only [if_pos hne]
      exact ⟨vx, vy, rfl⟩
    · simp only [if_neg hne]
      rcases Obj.get pl pid with _ | player
      · exact ⟨vx, vy, rfl⟩
      · exact ⟨_, _, rfl⟩

theorem updateViewport_players (s : GameState) :
    (GameClient.updateViewport s).players = s.players := by
  obtain ⟨vx, vy, h⟩ := updateViewport_eq s
  rw [h]

theorem updateViewport_playerId (s : GameState) :
    (GameClient.updateViewport s).playerId = s.playerId := by
  obtain ⟨vx, vy, h⟩ := updateViewport_eq s
  rw [h]

theorem updateViewport_avatars (s : GameState) :
    (GameClient.updateViewport s).avatars = s.avatars := by
  obtain ⟨vx, vy, h⟩ := updateViewport_eq s
  rw [h]

/-- Both `Math.max(0, Math.min(world - canvas, center - canvas/2))` (the
code) and `clamp(center - canvas/2, 0, max(0, world - canvas))` (the spec)
compute the same rational on every input. -/
theorem code_axis_eq_spec_axis (focal viewport world : ℚ) :
    max 0 (min (world - viewport) (focal - viewport / 2))
      = specViewportAxis focal viewport world := by
  unfold specViewportAxis specClamp
  simp only [max_def, min_def]
  split_ifs <;> linarith

/-- The worked example evaluated: viewport (1248, 0). -/
theorem exampleViewport_value :
    (GameClient.updateViewport exampleViewportState).viewportX = 1248 ∧
    (GameClient.updateViewport exampleViewportState).viewportY = 0 := by
  have hpid : exampleViewportState.playerId = some "p1" := rfl
  have hne : ("p1" : String) ≠ "" := by decide
  have hget : Obj.get exampleViewportState.players "p1" = some examplePlayer := by
    simp [exampleViewportState, Obj.get]
  have hvx : (GameClient.updateViewport exampleViewportState).viewportX
      = max 0 (min (exampleViewportState.worldWidth - exampleViewportState.canvasWidth)
          (examplePlayer.x - exampleViewportState.canvasWidth / 2)) := by
    simp [GameClient.updateViewport, hpid, hne, hget]
  have hvy : (GameClient.updateViewport exampleViewportState).viewportY
      = max 0 (min (exampleViewportState.worldHeight - exampleViewportState.canvasHeight)
          (examplePlayer.y - exampleViewportState.canvasHeight / 2)) := by
    simp [GameClient.updateViewport, hpid, hne, hget]
  constructor
  · rw [hvx]
    norm_num [exampleViewportState, examplePlayer, GameClient.construct,
      max_def, min_def]
  · rw [hvy]
    norm_num [exampleViewportState, examplePlayer, GameClient.construct,
      max_def, min_def]

/-- Claim C1: whenever `updateViewport` recomputes the camera (a local
player id is set and resolves to a player), the resulting viewport origin
equals `clamp(focal - viewport/2, 0, max(0, world - viewport))` on each
axis; under `world ≥ viewport` the result lies in `[0, world - viewport]`
on that axis; when the viewport exceeds the world on an axis the result is
0 there; and on the worked example (world 2048×2048, canvas 800×600, focal
point (1900, 50)) the result is (1248, 0). -/
theorem viewport_clamp_correct (s : GameState) (pid : String) (player : Player)
    (hpid : s.playerId = some pid) (hne : pid ≠ "")
    (hget : Obj.get s.players pid = some player) :
    (GameClient.updateViewport s).viewportX
        = specViewportAxis player.x s.canvasWidth s.worldWidth ∧
    (GameClient.updateViewport s).viewportY
        = specViewportAxis player.y s.canvasHeight s.worldHeight ∧
    (s.canvasWidth ≤ s.worldWidth →
      0 ≤ (GameClient.updateViewport s).viewportX ∧
      (GameClient.updateViewport s).viewportX ≤ s.worldWidth - s.canvasWidth) ∧
    (s.canvasHeight ≤ s.worldHeight →
      0 ≤ (GameClient.updateViewport s).viewportY ∧
      (GameClient.updateViewport s).viewportY ≤ s.worldHeight - s.canvasHeight) ∧
    (s.worldWidth < s.canvasWidth → (GameClient.updateViewport s).viewportX = 0) ∧
    (s.worldHeight < s.canvasHeight → (GameClient.updateViewport s).viewportY = 0) ∧
    (GameClient.updateViewport exampleViewportState).viewportX = 1248 ∧
    (GameClient.updateViewport exampleViewportState).viewportY = 0 := by
  have hvx : (GameClient.updateViewport s).viewportX
      = max 0 (min (s.worldWidth - s.canvasWidth) (player.x - s.canvasWidth / 2)) := by
    simp [GameClient.updateViewport, hpid, hne, hget]
  have hvy : (GameClient.updateViewport s).viewportY
      = max 0 (min (s.worldHeight - s.canvasHeight) (player.y - s.canvasHeight / 2)) := by
    simp [GameClient.updateViewport, hpid, hne, hget]
  refine ⟨?_, ?_, ?_, ?_, ?_, ?_, ?_, ?_⟩
  · rw [hvx, code_axis_eq_spec_axis]
  · rw [hvy, code_axis_eq_spec_axis]
  · intro hw
    rw [hvx]
    constructor
    · exact le_max_left 0 _
    · exact max_le (by linarith) (min_le_left _ _)
  · intro hw
    rw [hvy]
    constructor
    · exact le_max_left 0 _
    · exact max_le (by linarith) (min_le_left _ _)
  · intro hw
    rw [hvx]
    exact max_eq_left (le_trans (min_le_left _ _) (by linarith))
  · intro hw
    rw [hvy]
    exact max_eq_left (le_trans (min_le_left _ _) (by linarith))
  · exact exampleViewport_value.1
  · exact exampleViewport_value.2

/-- Claim C1 witness: the theorem instantiated on the worked-example state,
all hypotheses discharged concretely. -/
theorem viewport_clamp_correct_witness :
    (GameClient.updateViewport exampleViewportState).viewportX
        = specViewportAxis examplePlayer.x exampleViewportState.canvasWidth
            exampleViewportState.worldWidth ∧
    (GameClient.updateViewport exampleViewportState).viewportX = 1248 :=
  ⟨(viewport_clamp_correct exampleViewportState "p1" examplePlayer rfl
      (by decide) rfl).1,
   (viewport_clamp_correct exampleViewportState "p1" examplePlayer rfl
      (by decide) rfl).2.2.2.2.2.2.1⟩

/-- Claim C4: a malformed inbound payload (decode failure) is caught by the
`try`/`catch` in `ws.onmessage` and logged, and the session state — local
player id, player mapping, avatar mapping and viewport alike — is returned
exactly as it was; `onMessage` is a total function, so no exception escapes
the handler. -/
theorem malformed_message_preserves_state (s : GameState) :
    (GameClient.onMessage s none).1 = s ∧ (GameClient.onMessage s none).2 ≠ [] := by
  constructor
  · rfl
  · simp [GameClient.onMessage]

/-- Claim C10: when the local player id is unset or does not resolve in the
player mapping, `updateViewport` leaves both viewport coordinates exactly
unchanged. -/
theorem updateViewport_unknown_local_noop (s : GameState)
    (h : s.playerId = none ∨
      ∃ pid, s.playerId = some pid ∧ Obj.get s.players pid = none) :
    (GameClient.updateViewport s).viewportX = s.viewportX ∧
    (GameClient.updateViewport s).viewportY = s.viewportY := by
  rcases h with h | ⟨pid, hpid, hget⟩
  · simp [GameClient.updateViewport, h]
  · by_cases hne : pid = ""
    · subst hne
      simp [GameClient.updateViewport, hpid]
    · simp [GameClient.updateViewport, hpid, hne, hget]

/-- Claim C10 witness: the freshly constructed client (no player id) keeps
its viewport under `updateViewport`. -/
theorem updateViewport_unknown_local_noop_witness :
    (GameClient.updateViewport (GameClient.construct 800 600)).viewportX
        = (GameClient.construct 800 600).viewportX ∧
    (GameClient.updateViewport (GameClient.construct 800 600)).viewportY
        = (GameClient.construct 800 600).viewportY :=
  updateViewport_unknown_local_noop (GameClient.construct 800 600) (Or.inl rfl)

/-- Claim C5 counterexample: `loadWorldMap` assigns the world image object
synchronously, before its load completes, and `render` only guards on the
FIELD being assigned (`if (!this.worldImage) return`).  So in the reachable
state right after `loadWorldMap` — world image present but not loaded —
`render` already emits drawing commands (it clears the surface and issues
the background blit), refuting the claim that every state with an unloaded
world image renders nothing. -/
theorem render_unloaded_world_still_draws :
    GameClient.worldImageLoaded
        (GameClient.loadWorldMap (GameClient.construct 800 600)) = false ∧
    GameClient.render (GameClient.loadWorldMap (GameClient.construct 800 600))
        ≠ [] := by
  constructor
  · rfl
  · simp [GameClient.render, GameClient.loadWorldMap, GameClient.construct]

/-- Claim C5 (amended): `render` performs no drawing operation at all — no
clear, no background blit, no player draw — exactly when the world-image
FIELD is still unassigned (null); once `loadWorldMap` has assigned the
image object, rendering proceeds even if the image has not finished
loading. -/
theorem render_noop_when_world_image_null (s : GameState)
    (h : s.worldImage = none) : GameClient.render s = [] := by
  simp [GameClient.render, h]

/-- Claim C5 witness: the constructor state (world image still null)
renders nothing. -/
theorem render_noop_when_world_image_null_witness :
    GameClient.render (GameClient.construct 800 600) = [] :=
  render_noop_when_world_image_null (GameClient.construct 800 600) rfl

/-- Claim C2: a `players_moved` payload overwrites (wholesale) exactly the
entries whose ids appear in it — inserting ids not previously known — and
leaves the entry of every other player, the local player id, and the avatar
mapping unchanged. -/
theorem players_moved_effect (s : GameState) (p : Obj Player) :
    (∀ k v, Obj.getLast p k = some v →
      Obj.get ((GameClient.handleMessage s (Message.playersMoved p)).1).players k
        = some v) ∧
    (∀ k, Obj.getLast p k = none →
      Obj.get ((GameClient.handleMessage s (Message.playersMoved p)).1).players k
        = Obj.get s.players k) ∧
    ((GameClient.handleMessage s (Message.playersMoved p)).1).playerId = s.playerId ∧
    ((GameClient.handleMessage s (Message.playersMoved p)).1).avatars = s.avatars := by
  refine ⟨fun k v hlast => ?_, fun k hlast => ?_, ?_, ?_⟩
  · show Obj.get (GameClient.updateViewport
        { s with players := Obj.assign s.players p }).players k = some v
    rw [updateViewport_players]
    have hga := Obj.get_assign p s.players k
    simp only [hlast] at hga
    exact hga
  · show Obj.get (GameClient.updateViewport
        { s with players := Obj.assign s.players p }).players k = Obj.get s.players k
    rw [updateViewport_players]
    have hga := Obj.get_assign p s.players k
    simp only [hlast] at hga
    exact hga
  · show (GameClient.updateViewport
        { s with players := Obj.assign s.players p }).playerId = s.playerId
    rw [updateViewport_playerId]
  · show (GameClient.updateViewport
        { s with players := Obj.assign s.players p }).avatars = s.avatars
    rw [updateViewport_avatars]

/-- Claim C2 witness: a one-entry payload on the constructor state — the
listed id is inserted, an unrelated id is untouched. -/
theorem players_moved_effect_witness :
    Obj.get ((GameClient.handleMessage (GameClient.construct 800 600)
        (Message.playersMoved [("p1", examplePlayer)])).1).players "p1"
      = some examplePlayer ∧
    Obj.get ((GameClient.handleMessage (GameClient.construct 800 600)
        (Message.playersMoved [("p1", examplePlayer)])).1).players "p2"
      = Obj.get (GameClient.construct 800 600).players "p2" :=
  ⟨(players_moved_effect (GameClient.construct 800 600)
      [("p1", examplePlayer)]).1 "p1" examplePlayer rfl,
   (players_moved_effect (GameClient.construct 800 600)
      [("p1", examplePlayer)]).2.1 "p2" rfl⟩

theorem updateViewport_idem (s : GameState) :
    GameClient.updateViewport (GameClient.updateViewport s)
      = GameClient.updateViewport s := by
  rcases hp : s.playerId with _ | pid
  · simp [GameClient.updateViewport, hp]
  · by_cases hne : pid = ""
    · subst hne
      simp [GameClient.updateViewport, hp]
    · rcases hget : Obj.get s.players pid with _ | player <;>
        simp [GameClient.updateViewport, hp, hne, hget]

/-- Claim C3: applying one and the same `players_moved` payload twice yields
exactly the same state (players, local id, avatars, viewport and all) as
applying it once; key uniqueness of the player object is the standing JS
invariant. -/
theorem players_moved_idempotent (s : GameState) (p : Obj Player)
    (h : (Obj.keys s.players).Nodup) :
    (GameClient.handleMessage (GameClient.handleMessage s (Message.playersMoved p)).1
        (Message.playersMoved p)).1
      = (GameClient.handleMessage s (Message.playersMoved p)).1 := by
  show GameClient.updateViewport
      { GameClient.updateViewport { s with players := Obj.assign s.players p } with
        players := Obj.assign (GameClient.updateViewport
          { s with players := Obj.assign s.players p }).players p }
    = GameClient.updateViewport { s with players := Obj.assign s.players p }
  have h1 : Obj.assign (GameClient.updateViewport
      { s with players := Obj.assign s.players p }).players p
      = (GameClient.updateViewport
          { s with players := Obj.assign s.players p }).players := by
    rw [updateViewport_players]
    exact Obj.assign_idem s.players p h
  rw [h1]
  exact updateViewport_idem { s with players := Obj.assign s.players p }

/-- Claim C3 witness: the freshly constructed client with a one-entry
payload. -/
theorem players_moved_idempotent_witness :
    (GameClient.handleMessage
        (GameClient.handleMessage (GameClient.construct 800 600)
          (Message.playersMoved [("p1", examplePlayer)])).1
        (Message.playersMoved [("p1", examplePlayer)])).1
      = (GameClient.handleMessage (GameClient.construct 800 600)
          (Message.playersMoved [("p1", examplePlayer)])).1 :=
  players_moved_idempotent (GameClient.construct 800 600) [("p1", examplePlayer)]
    (by simp [GameClient.construct, Obj.keys])

theorem keys_map_avatar_init (avatars : Obj AvatarData) :
    Obj.keys (avatars.map (fun entry => (entry.1, Avatar.init entry.2)))
      = Obj.keys avatars := by
  induction avatars with
  | nil => rfl
  | cons hd t ih =>
    simp only [List.map_cons, Obj.keys] at ih ⊢
    rw [ih]

/-- The avatar-construction loop of the join handler — `this.avatars = {}`
then one write per `avatarName in message.avatars` — is the same as
replaying the mapped entry list onto the empty object. -/
theorem avatars_foldl_eq_assign (avatars : Obj AvatarData) :
    avatars.foldl (fun acc entry => Obj.set acc entry.1 (Avatar.init entry.2)) []
      = Obj.assign [] (avatars.map (fun entry => (entry.1, Avatar.init entry.2))) := by
  rw [Obj.assign, List.foldl_map]

/-- Claim C6: a successful join response sets the local player id to the
id carried by the response, replaces the player mapping with the snapshot,
and builds exactly one `Avatar` per avatar definition in the response (in
order); a failed join response leaves the state exactly unchanged and logs
the error. -/
theorem join_response_effect (s : GameState) (pid : String) (players : Obj Player)
    (avatars : Obj AvatarData) (err : String)
    (hnd : (Obj.keys avatars).Nodup) :
    ((GameClient.handleMessage s
        (Message.joinGame true pid players avatars err)).1).playerId = some pid ∧
    ((GameClient.handleMessage s
        (Message.joinGame true pid players avatars err)).1).players = players ∧
    ((GameClient.handleMessage s
        (Message.joinGame true pid players avatars err)).1).avatars
      = avatars.map (fun entry => (entry.1, Avatar.init entry.2)) ∧
    (GameClient.handleMessage s
        (Message.joinGame false pid players avatars err)).1 = s ∧
    (GameClient.handleMessage s
        (Message.joinGame false pid players avatars err)).2
      = ["Failed to join game: " ++ err] := by
  refine ⟨?_, ?_, ?_, rfl, rfl⟩
  · show (GameClient.updateViewport
        { s with playerId := some pid, players := players,
                 avatars := avatars.foldl
                   (fun acc entry => Obj.set acc entry.1 (Avatar.init entry.2)) [] }).playerId
      = some pid
    rw [updateViewport_playerId]
  · show (GameClient.updateViewport
        { s with playerId := some pid, players := players,
                 avatars := avatars.foldl
                   (fun acc entry => Obj.set acc entry.1 (Avatar.init entry.2)) [] }).players
      = players
    rw [updateViewport_players]
  · show (GameClient.updateViewport
        { s with playerId := some pid, players := players,
                 avatars := avatars.foldl
                   (fun acc entry => Obj.set acc entry.1 (Avatar.init entry.2)) [] }).avatars
      = avatars.map (fun entry => (entry.1, Avatar.init entry.2))
    rw [updateViewport_avatars]
    show avatars.foldl (fun acc entry => Obj.set acc entry.1 (Avatar.init entry.2)) []
      = avatars.map (fun entry => (entry.1, Avatar.init entry.2))
    rw [avatars_foldl_eq_assign]
    refine Obj.assign_nil_of_nodup _ ?_
    rw [keys_map_avatar_init]
    exact hnd

/-- An avatar definition used in concrete witnesses. -/
def exampleAvatarData : AvatarData :=
  { name := "a1",
    frames := [("north", ["n0"]), ("south", ["s0"]), ("east", ["e0"])] }

/-- Claim C6 witness: a concrete successful and failed join on the
constructor state. -/
theorem join_response_effect_witness :
    ((GameClient.handleMessage (GameClient.construct 800 600)
        (Message.joinGame true "p1" [("p1", examplePlayer)]
          [("a1", exampleAvatarData)] "")).1).playerId = some "p1" ∧
    (GameClient.handleMessage (GameClient.construct 800 600)
        (Message.joinGame false "p1" [("p1", examplePlayer)]
          [("a1", exampleAvatarData)] "denied")).1
      = GameClient.construct 800 600 :=
  ⟨(join_response_effect (GameClient.construct 800 600) "p1" [("p1", examplePlayer)]
      [("a1", exampleAvatarData)] "" (by simp [Obj.keys])).1,
   (join_response_effect (GameClient.construct 800 600) "p1" [("p1", examplePlayer)]
      [("a1", exampleAvatarData)] "denied" (by simp [Obj.keys])).2.2.2.1⟩

/-- Claim C7: with a loaded east frame, the mirrored (`isWest`) draw at
(x, y) substitutes the east frame set and issues a command whose screen
footprint is the same 32×32 box centered on (x, y) as the non-mirrored
east draw, and whose pixel columns are those of the east draw reflected about the
vertical axis through x (screen position `2x - p`), not about the canvas
origin. -/
theorem mirrored_draw_symmetric (a : Avatar) (x y : ℚ) (facing : String)
    (i : Nat) (f : Frame)
    (h : Avatar.lookupFrame a "east" i = some f) :
    Avatar.draw a x y facing i true
        = some (CtxOp.drawFrame f (-x - 32 / 2) (y - 32 / 2) 32 32 true) ∧
    Avatar.draw a x y "east" i false
        = some (CtxOp.drawFrame f (x - 32 / 2) (y - 32 / 2) 32 32 false) ∧
    CtxOp.footprint (CtxOp.drawFrame f (-x - 32 / 2) (y - 32 / 2) 32 32 true)
        = some (x - 16, y - 16, 32, 32) ∧
    CtxOp.footprint (CtxOp.drawFrame f (x - 32 / 2) (y - 32 / 2) 32 32 false)
        = some (x - 16, y - 16, 32, 32) ∧
    ∀ t : ℚ,
      CtxOp.pixelX (CtxOp.drawFrame f (-x - 32 / 2) (y - 32 / 2) 32 32 true) t
        = (CtxOp.pixelX (CtxOp.drawFrame f (x - 32 / 2) (y - 32 / 2) 32 32 false) t).map
            (fun px => 2 * x - px) := by
  refine ⟨?_, ?_, ?_, ?_, fun t => ?_⟩
  · simp [Avatar.draw, h]
  · simp [Avatar.draw, h]
  · have h1 : -(-x - 32 / 2) - 32 = x - 16 := by ring
    have h2 : y - 32 / 2 = y - 16 := by ring
    show some (-(-x - 32 / 2) - 32, y - 32 / 2, (32 : ℚ), 32)
        = some (x - 16, y - 16, 32, 32)
    rw [h1, h2]
  · have h1 : x - 32 / 2 = x - 16 := by ring
    have h2 : y - 32 / 2 = y - 16 := by ring
    show some (x - 32 / 2, y - 32 / 2, (32 : ℚ), 32)
        = some (x - 16, y - 16, 32, 32)
    rw [h1, h2]
  · show some (-((-x - 32 / 2) + 32 * t)) = some (2 * x - ((x - 32 / 2) + 32 * t))
    refine congrArg some ?_
    ring

/-- A concrete avatar with one loaded east frame. -/
def exampleEastAvatar : Avatar :=
  { name := "a1", frames := [("east", ["e0"])],
    loadedImages := [("east", [some ⟨7⟩])] }

/-- Claim C7 witness: the mirrored draw of the concrete avatar at
(100, 50). -/
theorem mirrored_draw_symmetric_witness :
    Avatar.draw exampleEastAvatar 100 50 "west" 0 true
        = some (CtxOp.drawFrame ⟨7⟩ (-100 - 32 / 2) (50 - 32 / 2) 32 32 true) ∧
    CtxOp.pixelX (CtxOp.drawFrame ⟨7⟩ (-100 - 32 / 2) (50 - 32 / 2) 32 32 true) 0
        = (CtxOp.pixelX
            (CtxOp.drawFrame ⟨7⟩ (100 - 32 / 2) (50 - 32 / 2) 32 32 false) 0).map
            (fun px => 2 * 100 - px) :=
  ⟨(mirrored_draw_symmetric exampleEastAvatar 100 50 "west" 0 ⟨7⟩ rfl).1,
   (mirrored_draw_symmetric exampleEastAvatar 100 50 "west" 0 ⟨7⟩ rfl).2.2.2.2 0⟩

/-- Claim C8: when the looked-up frame is absent — direction key missing,
index out of range, or slot not loaded yet — `Avatar.draw` issues no
command at all (and, being a total function, raises no error); when the
frame is present the screen footprint of the issued command is the 32×32 square
centered on the target point. -/
theorem missing_frame_draw_noop (a : Avatar) (x y : ℚ) (facing : String)
    (i : Nat) (isWest : Bool) :
    (Avatar.lookupFrame a (if isWest then "east" else facing) i = none →
      Avatar.draw a x y facing i isWest = none) ∧
    ∀ f, Avatar.lookupFrame a (if isWest then "east" else facing) i = some f →
      ∃ op, Avatar.draw a x y facing i isWest = some op ∧
        CtxOp.footprint op = some (x - 16, y - 16, 32, 32) := by
  cases isWest
  · constructor
    · intro h
      replace h : Avatar.lookupFrame a facing i = none := h
      simp [Avatar.draw, h]
    · intro f h
      replace h : Avatar.lookupFrame a facing i = some f := h
      refine ⟨CtxOp.drawFrame f (x - 32 / 2) (y - 32 / 2) 32 32 false, ?_, ?_⟩
      · simp [Avatar.draw, h]
      · have h1 : x - 32 / 2 = x - 16 := by ring
        have h2 : y - 32 / 2 = y - 16 := by ring
        show some (x - 32 / 2, y - 32 / 2, (32 : ℚ), 32)
            = some (x - 16, y - 16, 32, 32)
        rw [h1, h2]
  · constructor
    · intro h
      replace h : Avatar.lookupFrame a "east" i = none := h
      simp [Avatar.draw, h]
    · intro f h
      replace h : Avatar.lookupFrame a "east" i = some f := h
      refine ⟨CtxOp.drawFrame f (-x - 32 / 2) (y - 32 / 2) 32 32 true, ?_, ?_⟩
      · simp [Avatar.draw, h]
      · have h1 : -(-x - 32 / 2) - 32 = x - 16 := by ring
        have h2 : y - 32 / 2 = y - 16 := by ring
        show some (-(-x - 32 / 2) - 32, y - 32 / 2, (32 : ℚ), 32)
            = some (x - 16, y - 16, 32, 32)
        rw [h1, h2]

/-- Claim C8 witness: an avatar with no loaded images draws nothing; the
concrete east avatar draws its 32×32 box centered on the point. -/
theorem missing_frame_draw_noop_witness :
    Avatar.draw { name := "a2", frames := [], loadedImages := [] }
        3 4 "north" 0 false = none ∧
    ∃ op, Avatar.draw exampleEastAvatar 100 50 "east" 0 false = some op ∧
      CtxOp.footprint op = some (100 - 16, 50 - 16, 32, 32) :=
  ⟨(missing_frame_draw_noop { name := "a2", frames := [], loadedImages := [] }
      3 4 "north" 0 false).1 rfl,
   (missing_frame_draw_noop exampleEastAvatar 100 50 "east" 0 false).2 ⟨7⟩ rfl⟩

theorem drawnPlayerIds_not_mem_of_absent (s : GameState) (pid : String)
    (h : pid ∉ Obj.keys s.players) : pid ∉ GameClient.drawnPlayerIds s := by
  intro hmem
  unfold GameClient.drawnPlayerIds at hmem
  obtain ⟨entry, hentry, heq⟩ := List.mem_map.mp hmem
  refine h ?_
  unfold Obj.keys
  exact List.mem_map.mpr ⟨entry, List.mem_of_mem_filter hentry, heq⟩

/-- Claim C9: after `player_left` for id X, X is gone from the player
mapping, X is not among the players the render loop draws, every other
player keeps its entry unchanged, and the concrete example of the spec (join with
only p1, then `player_left p1`) ends with an empty player mapping. -/
theorem player_left_removes (s : GameState) (pid : String) :
    Obj.get ((GameClient.handleMessage s (Message.playerLeft pid)).1).players pid
        = none ∧
    (∀ k, k ≠ pid →
      Obj.get ((GameClient.handleMessage s (Message.playerLeft pid)).1).players k
        = Obj.get s.players k) ∧
    pid ∉ GameClient.drawnPlayerIds
        (GameClient.handleMessage s (Message.playerLeft pid)).1 ∧
    ((GameClient.handleMessage
        (GameClient.handleMessage (GameClient.construct 800 600)
          (Message.joinGame true "p1" [("p1", examplePlayer)] [] "")).1
        (Message.playerLeft "p1")).1).players = [] := by
  refine ⟨?_, fun k hk => ?_, ?_, ?_⟩
  · show Obj.get (Obj.delete s.players pid) pid = none
    rw [Obj.get_delete, if_pos rfl]
  · show Obj.get (Obj.delete s.players pid) k = Obj.get s.players k
    rw [Obj.get_delete, if_neg (Ne.symm hk)]
  · refine drawnPlayerIds_not_mem_of_absent _ pid ?_
    show pid ∉ Obj.keys (Obj.delete s.players pid)
    exact Obj.keys_delete_not_mem s.players pid
  · rfl

/-- A state with two players, used as the C9 witness input. -/
def examplePlayer2 : Player :=
  { id := "p2", username := "Bee", x := 10, y := 20, facing := "east",
    animationFrame := 1, avatar := "a1" }

/-- A two-player state for the C9 witness. -/
def exampleTwoPlayersState : GameState :=
  { GameClient.construct 800 600 with
    playerId := some "p1",
    players := [("p1", examplePlayer), ("p2", examplePlayer2)] }

/-- Claim C9 witness: removing p1 from a two-player state leaves the p2 entry
untouched and p1 unresolvable. -/
theorem player_left_removes_witness :
    Obj.get ((GameClient.handleMessage exampleTwoPlayersState
        (Message.playerLeft "p1")).1).players "p1" = none ∧
    Obj.get ((GameClient.handleMessage exampleTwoPlayersState
        (Message.playerLeft "p1")).1).players "p2"
      = Obj.get exampleTwoPlayersState.players "p2" :=
  ⟨(player_left_removes exampleTwoPlayersState "p1").1,
   (player_left_removes exampleTwoPlayersState "p1").2.1 "p2" (by decide)⟩
